import Mathlib

/-!
# Result protocol of `src/ios/xss_error.h`

A shallow embedding of the header that defines the outcome value returned by
every call of the security-services API: the two constructors `CREATE_ERROR`
and `CREATE_SUCCESS`, the statement macro `SET_ERROR_CODE`, the predicates
`IS_SUCCESS` and `IS_FAILED`, the enumerations `ss_success_code_t` and
`ss_error_code_t`, and the `SSERVICE_SUCCESS_*` / `SSERVICE_ERROR_*` wrapper
macros.

The header includes `xss_types.h`, which declares the result type
`sservice_result_t` and the two discriminant constants.  That file is not part
of the sources at hand, so those declarations are modelled from the
specification and marked as such.  C `int` values are embedded as `Int`.
-/

namespace XssError

/-! ## Declarations of `xss_types.h` -/

/-- Modelled from the spec: the discriminant constants `SSERVICE_SUCCESS` and
`SSERVICE_ERROR` are declared in `xss_types.h`, which is missing.  The
specification describes the `outcome` field as a "discriminant with exactly two
variants, `Success` | `Error`"; the two constructors carry the names the header
uses for them. -/
inductive sservice_outcome_t where
  | SSERVICE_SUCCESS
  | SSERVICE_ERROR
deriving DecidableEq, Repr, Fintype

export sservice_outcome_t (SSERVICE_SUCCESS SSERVICE_ERROR)

/-- Modelled from the spec: the record `sservice_result_t` is declared in
`xss_types.h`, which is missing.  The specification gives it three fields in
fixed order: the discriminant, the reserved field, and the code, "a signed
integer".  The field names are the ones the header assigns to. -/
structure sservice_result_t where
  is_success : sservice_outcome_t
  reserved : Int
  error_or_warn_code : Int
deriving DecidableEq, Repr

/-- Smallest value of a 32-bit C `int`. -/
def INT_MIN : Int := -2147483648

/-- Largest value of a 32-bit C `int`. -/
def INT_MAX : Int := 2147483647

/-! ## Constructors (lines 38-64) -/

/-- The statement macro `SET_ERROR_CODE( result, errorCode )`: three
assignments to the fields of `result`, in the order of the macro body.  The
macro substitutes the text of `errorCode` into the third assignment, so the
argument is an expression that is evaluated there, on `result` as the first two
assignments left it; it is embedded as a function of the content of `result`
at that point.  An argument that does not mention `result` is a constant
function.  The updated record is returned. -/
def SET_ERROR_CODE (result : sservice_result_t) (errorCode : sservice_result_t → Int) :
    sservice_result_t :=
  let result := { result with is_success := SSERVICE_ERROR }
  let result := { result with reserved := 0 }
  let result := { result with error_or_warn_code := errorCode result }
  result

/-- Body of `CREATE_ERROR` started from the content `r` of its local variable.
The C local is declared without an initialiser, so `r` stands for whatever the
storage held before the macro ran.  The macro argument is the by-value
parameter `error_code`, which does not read `r`. -/
def CREATE_ERROR_from (r : sservice_result_t) (error_code : Int) : sservice_result_t :=
  let r := SET_ERROR_CODE r (fun _ => error_code)
  r

/-- Body of `CREATE_SUCCESS` started from the content `r` of its local
variable: three field assignments, then the record is returned. -/
def CREATE_SUCCESS_from (r : sservice_result_t) (info_code : Int) : sservice_result_t :=
  let r := { r with is_success := SSERVICE_SUCCESS }
  let r := { r with reserved := 0 }
  let r := { r with error_or_warn_code := info_code }
  r

/-- A content for a local that has not been assigned yet: the discriminant is
left to the caller, the other two fields hold `-1`, a value neither constructor
stores in `reserved`.  `CREATE_ERROR_from_eq` and `CREATE_SUCCESS_from_eq` show
that the choice does not matter. -/
def stale (o : sservice_outcome_t) : sservice_result_t :=
  { is_success := o, reserved := -1, error_or_warn_code := -1 }

/-- `static inline sservice_result_t CREATE_ERROR( int error_code )`. -/
def CREATE_ERROR (error_code : Int) : sservice_result_t :=
  CREATE_ERROR_from (stale SSERVICE_SUCCESS) error_code

/-- `static inline sservice_result_t CREATE_SUCCESS( int info_code )`. -/
def CREATE_SUCCESS (info_code : Int) : sservice_result_t :=
  CREATE_SUCCESS_from (stale SSERVICE_ERROR) info_code

/-! ## Predicates (lines 172-178) -/

/-- `#define IS_SUCCESS(res)  (res.is_success == SSERVICE_SUCCESS )`. -/
def IS_SUCCESS (res : sservice_result_t) : Bool :=
  res.is_success == SSERVICE_SUCCESS

/-- `#define IS_FAILED(res) (res.is_success == SSERVICE_ERROR )`. -/
def IS_FAILED (res : sservice_result_t) : Bool :=
  res.is_success == SSERVICE_ERROR

/-! ## The catalog (lines 66-119) -/

/-- The enumeration `ss_success_code_t`: its enumerators, as names. -/
inductive ss_success_code_t where
  | SSERVICE_SUCCESSCODE_NOINFO
deriving DecidableEq, Repr, Fintype

/-- Integer value of an enumerator of `ss_success_code_t`, as written in the
enumeration. -/
def ss_success_code_t.toInt : ss_success_code_t → Int
  | .SSERVICE_SUCCESSCODE_NOINFO => 0

/-- The enumeration `ss_error_code_t`: its enumerators, as names, in the order
of the header.  Two names are two constructors even where the header gives
them one integer; the line commented out in the header
(`SSERVICE_ERRORCODE_COMMUNICATIONERROR`) declares nothing and is absent. -/
inductive ss_error_code_t where
  | SSERVICE_ERRORCODE_FILESYSTEMERROR
  | SSERVICE_ERRORCODE_INSUFFICIENTMEMORY
  | SSERVICE_ERRORCODE_INVALIDIDENTIFIER
  | SSERVICE_ERRORCODE_INVALIDNUMBEROFOWNERS
  | SSERVICE_ERRORCODE_INVALIDPERSONA
  | SSERVICE_ERRORCODE_WRONGPERSON
  | SSERVICE_ERRORCODE_INVALIDPOLICY
  | SSERVICE_ERRORCODE_ADDITIONALCREDENTIALSPOLICYVOILATION
  | SSERVICE_ERRORCODE_INVALIDINPUTSIZE
  | SSERVICE_ERRORCODE_INTEGRITYVIOLATIONERROR
  | SSERVICE_ERRORCODE_INVALIDHANDLE
  | SSERVICE_ERRORCODE_INVALIDTYPE
  | SSERVICE_ERRORCODE_STORAGE_IDENTIFIER_ALREADY_IN_USE
  | SSERVICE_ERRORCODE_POLICYVIOLATIONDETECTED
  | SSERVICE_ERRORCODE_INVALID_WEB_DOMAINS_LIST_SIZE
  | SSERVICE_ERRORCODE_SERVER_NOT_ACCESSIBLE
  | SSERVICE_ERRORCODE_CONNECTION_TIMEOUT
  | SSERVICE_ERRORCODE_CONNECTION_GENERIC
  | SSERVICE_ERRORCODE_INVALID_DESCRIPTOR_STRUCTURE
  | SSERVICE_ERRORCODE_INVALID_DESCRIPTOR_PATH
  | SSERVICE_ERRORCODE_INVALID_TIMEOUT
  | SSERVICE_ERRORCODE_DESCRIPTOR_NOT_SUPPORTED_FOR_REQUEST_FORMAT
  | SSERVICE_ERRORCODE_INVALID_REQUEST_FORMAT
  | SSERVICE_ERRORCODE_INVALID_REQUEST_BODY_STRUCTURE
  | SSERVICE_ERRORCODE_INVALID_RESPONSE_BODY_STRUCTURE
  | SSERVICE_ERRORCODE_INVALID_URL
  | SSERVICE_ERRORCODE_INVALID_HTTP_METHOD
  | SSERVICE_ERRORCODE_BAD_CERTIFICATE_FORMAT
  | SSERVICE_ERRORCODE_SERVER_AUTENTICATION_ERROR
  | SSERVICE_ERRORCODE_INVALID_ARGUMENT_SIZE
  | SSERVICE_ERRORCODE_INCORRECT_STATE
  | SSERVICE_ERRORCODE_ACTION_ABORTED
  | SSERVICE_ERRORCODE_INTERNAL_ERROR
  | SSERVICE_ERRORCODE_BRIDGE_INTERNAL_ERROR
  | SSERVICE_ERRORCODE_CORDOVA_ERROR
  | SSERVICE_ERRORCODE_NOTIMPLEMENTED
  | SSERVICE_ERRORCODE_INSUFFICIENTTRUSTLEVEL
  | SSERVICE_ERRORCODE_INVALIDPOINTER
  | SSERVICE_ERRORCODE_INVALIDBUFFERSIZE
  | SSERVICE_ERRORCODE_MEMCPY
  | SSERVICE_ERRORCODE_CRYPTO
deriving DecidableEq, Repr, Fintype

/-- Integer value of an enumerator of `ss_error_code_t`, as written in the
enumeration.  This is the conversion C applies when an enumerator is passed
for an `int` parameter. -/
def ss_error_code_t.toInt : ss_error_code_t → Int
  | .SSERVICE_ERRORCODE_FILESYSTEMERROR => 1
  | .SSERVICE_ERRORCODE_INSUFFICIENTMEMORY => 2
  | .SSERVICE_ERRORCODE_INVALIDIDENTIFIER => 3
  | .SSERVICE_ERRORCODE_INVALIDNUMBEROFOWNERS => 4
  | .SSERVICE_ERRORCODE_INVALIDPERSONA => 5
  | .SSERVICE_ERRORCODE_WRONGPERSON => 5
  | .SSERVICE_ERRORCODE_INVALIDPOLICY => 6
  | .SSERVICE_ERRORCODE_ADDITIONALCREDENTIALSPOLICYVOILATION => 7
  | .SSERVICE_ERRORCODE_INVALIDINPUTSIZE => 7
  | .SSERVICE_ERRORCODE_INTEGRITYVIOLATIONERROR => 8
  | .SSERVICE_ERRORCODE_INVALIDHANDLE => 9
  | .SSERVICE_ERRORCODE_INVALIDTYPE => 10
  | .SSERVICE_ERRORCODE_STORAGE_IDENTIFIER_ALREADY_IN_USE => 11
  | .SSERVICE_ERRORCODE_POLICYVIOLATIONDETECTED => 13
  | .SSERVICE_ERRORCODE_INVALID_WEB_DOMAINS_LIST_SIZE => 14
  | .SSERVICE_ERRORCODE_SERVER_NOT_ACCESSIBLE => 16
  | .SSERVICE_ERRORCODE_CONNECTION_TIMEOUT => 17
  | .SSERVICE_ERRORCODE_CONNECTION_GENERIC => 18
  | .SSERVICE_ERRORCODE_INVALID_DESCRIPTOR_STRUCTURE => 19
  | .SSERVICE_ERRORCODE_INVALID_DESCRIPTOR_PATH => 20
  | .SSERVICE_ERRORCODE_INVALID_TIMEOUT => 22
  | .SSERVICE_ERRORCODE_DESCRIPTOR_NOT_SUPPORTED_FOR_REQUEST_FORMAT => 23
  | .SSERVICE_ERRORCODE_INVALID_REQUEST_FORMAT => 24
  | .SSERVICE_ERRORCODE_INVALID_REQUEST_BODY_STRUCTURE => 26
  | .SSERVICE_ERRORCODE_INVALID_RESPONSE_BODY_STRUCTURE => 27
  | .SSERVICE_ERRORCODE_INVALID_URL => 29
  | .SSERVICE_ERRORCODE_INVALID_HTTP_METHOD => 30
  | .SSERVICE_ERRORCODE_BAD_CERTIFICATE_FORMAT => 32
  | .SSERVICE_ERRORCODE_SERVER_AUTENTICATION_ERROR => 33
  | .SSERVICE_ERRORCODE_INVALID_ARGUMENT_SIZE => 34
  | .SSERVICE_ERRORCODE_INCORRECT_STATE => 35
  | .SSERVICE_ERRORCODE_ACTION_ABORTED => 36
  | .SSERVICE_ERRORCODE_INTERNAL_ERROR => 1000
  | .SSERVICE_ERRORCODE_BRIDGE_INTERNAL_ERROR => 1001
  | .SSERVICE_ERRORCODE_CORDOVA_ERROR => 1002
  | .SSERVICE_ERRORCODE_NOTIMPLEMENTED => 1003
  | .SSERVICE_ERRORCODE_INSUFFICIENTTRUSTLEVEL => 1005
  | .SSERVICE_ERRORCODE_INVALIDPOINTER => 1006
  | .SSERVICE_ERRORCODE_INVALIDBUFFERSIZE => 1007
  | .SSERVICE_ERRORCODE_MEMCPY => 1008
  | .SSERVICE_ERRORCODE_CRYPTO => 1009


/-! ## Wrapper macros (lines 123-165) -/

/-- `#define SSERVICE_SUCCESS_NOINFO CREATE_SUCCESS( SSERVICE_SUCCESSCODE_NOINFO )`. -/
def SSERVICE_SUCCESS_NOINFO : sservice_result_t :=
  CREATE_SUCCESS ss_success_code_t.SSERVICE_SUCCESSCODE_NOINFO.toInt

/-- Names of the `SSERVICE_ERROR_*` macros, in the order of the header.  The
macro commented out in the header (`SSERVICE_ERROR_COMMUNICATIONERROR`) defines
nothing and is absent. -/
inductive ss_error_wrapper_t where
  | SSERVICE_ERROR_INVALIDPOINTER
  | SSERVICE_ERROR_INVALIDINPUTSIZE
  | SSERVICE_ERROR_INVALIDBUFFERSIZE
  | SSERVICE_ERROR_INVALIDHANDLE
  | SSERVICE_ERROR_INVALIDPERSONA
  | SSERVICE_ERROR_INVALIDNUMBEROFOWNERS
  | SSERVICE_ERROR_POLICYVIOLATIONDETECTED
  | SSERVICE_ERROR_INVALIDWEBDOMAINSLISTSIZE
  | SSERVICE_ERROR_INVALIDPOLICY
  | SSERVICE_ERROR_ADDITIONALCREDENTIALSPOLICYVOILATION
  | SSERVICE_ERROR_INVALIDIDENTIFIER
  | SSERVICE_ERROR_INVALIDTYPE
  | SSERVICE_ERROR_STORAGE_IDENTIFIER_ALREADY_IN_USE
  | SSERVICE_ERROR_INSUFFICIENTMEMORY
  | SSERVICE_ERROR_FILESYSTEMERROR
  | SSERVICE_ERROR_INTEGRITYVIOLATIONERROR
  | SSERVICE_ERROR_INSUFFICIENTTRUSTLEVEL
  | SSERVICE_ERROR_WRONGPERSONA
  | SSERVICE_ERROR_INTERNAL_ERROR
  | SSERVICE_ERROR_BRIDGE_INTERNAL_ERROR
  | SSERVICE_ERROR_NOTIMPLEMENTED
  | SSERVICE_ERROR_CORDOVA_ERROR
  | SSERVICE_ERROR_MEMCPY
  | SSERVICE_ERROR_CRYPTO
  | SSERVICE_ERROR_SERVER_NOT_ACCESSIBLE
  | SSERVICE_ERROR_CONNECTION_TIMEOUT
  | SSERVICE_ERROR_CONNECTION_GENERIC
  | SSERVICE_ERROR_INVALID_DESCRIPTOR_STRUCTURE
  | SSERVICE_ERROR_INVALID_DESCRIPTOR_PATH
  | SSERVICE_ERROR_INVALID_TIMEOUT
  | SSERVICE_ERROR_DESCRIPTOR_NOT_SUPPORTED_FOR_REQUEST_FORMAT
  | SSERVICE_ERROR_INVALID_REQUEST_FORMAT
  | SSERVICE_ERROR_INVALID_REQUEST_BODY_STRUCTURE
  | SSERVICE_ERROR_INVALID_RESPONSE_BODY_STRUCTURE
  | SSERVICE_ERROR_INVALID_URL
  | SSERVICE_ERROR_INVALID_HTTP_METHOD
  | SSERVICE_ERROR_BAD_CERTIFICATE_FORMAT
  | SSERVICE_ERROR_SERVER_AUTENTICATION_ERROR
  | SSERVICE_ERROR_INVALID_ARGUMENT_SIZE
  | SSERVICE_ERROR_INCORRECT_STATE
  | SSERVICE_ERROR_ACTION_ABORTED
deriving DecidableEq, Repr, Fintype

/-- The enumerator that the body of a wrapper macro passes to `CREATE_ERROR`,
macro by macro as the header writes it. -/
def ss_error_wrapper_t.arg : ss_error_wrapper_t → ss_error_code_t
  | .SSERVICE_ERROR_INVALIDPOINTER => .SSERVICE_ERRORCODE_INVALIDPOINTER
  | .SSERVICE_ERROR_INVALIDINPUTSIZE => .SSERVICE_ERRORCODE_INVALIDINPUTSIZE
  | .SSERVICE_ERROR_INVALIDBUFFERSIZE => .SSERVICE_ERRORCODE_INVALIDBUFFERSIZE
  | .SSERVICE_ERROR_INVALIDHANDLE => .SSERVICE_ERRORCODE_INVALIDHANDLE
  | .SSERVICE_ERROR_INVALIDPERSONA => .SSERVICE_ERRORCODE_INVALIDPERSONA
  | .SSERVICE_ERROR_INVALIDNUMBEROFOWNERS => .SSERVICE_ERRORCODE_INVALIDNUMBEROFOWNERS
  | .SSERVICE_ERROR_POLICYVIOLATIONDETECTED => .SSERVICE_ERRORCODE_POLICYVIOLATIONDETECTED
  | .SSERVICE_ERROR_INVALIDWEBDOMAINSLISTSIZE => .SSERVICE_ERRORCODE_INVALID_WEB_DOMAINS_LIST_SIZE
  | .SSERVICE_ERROR_INVALIDPOLICY => .SSERVICE_ERRORCODE_INVALIDPOLICY
  | .SSERVICE_ERROR_ADDITIONALCREDENTIALSPOLICYVOILATION => .SSERVICE_ERRORCODE_ADDITIONALCREDENTIALSPOLICYVOILATION
  | .SSERVICE_ERROR_INVALIDIDENTIFIER => .SSERVICE_ERRORCODE_INVALIDIDENTIFIER
  | .SSERVICE_ERROR_INVALIDTYPE => .SSERVICE_ERRORCODE_INVALIDTYPE
  | .SSERVICE_ERROR_STORAGE_IDENTIFIER_ALREADY_IN_USE => .SSERVICE_ERRORCODE_STORAGE_IDENTIFIER_ALREADY_IN_USE
  | .SSERVICE_ERROR_INSUFFICIENTMEMORY => .SSERVICE_ERRORCODE_INSUFFICIENTMEMORY
  | .SSERVICE_ERROR_FILESYSTEMERROR => .SSERVICE_ERRORCODE_FILESYSTEMERROR
  | .SSERVICE_ERROR_INTEGRITYVIOLATIONERROR => .SSERVICE_ERRORCODE_INTEGRITYVIOLATIONERROR
  | .SSERVICE_ERROR_INSUFFICIENTTRUSTLEVEL => .SSERVICE_ERRORCODE_INSUFFICIENTTRUSTLEVEL
  | .SSERVICE_ERROR_WRONGPERSONA => .SSERVICE_ERRORCODE_WRONGPERSON
  | .SSERVICE_ERROR_INTERNAL_ERROR => .SSERVICE_ERRORCODE_INTERNAL_ERROR
  | .SSERVICE_ERROR_BRIDGE_INTERNAL_ERROR => .SSERVICE_ERRORCODE_BRIDGE_INTERNAL_ERROR
  | .SSERVICE_ERROR_NOTIMPLEMENTED => .SSERVICE_ERRORCODE_NOTIMPLEMENTED
  | .SSERVICE_ERROR_CORDOVA_ERROR => .SSERVICE_ERRORCODE_CORDOVA_ERROR
  | .SSERVICE_ERROR_MEMCPY => .SSERVICE_ERRORCODE_MEMCPY
  | .SSERVICE_ERROR_CRYPTO => .SSERVICE_ERRORCODE_CRYPTO
  | .SSERVICE_ERROR_SERVER_NOT_ACCESSIBLE => .SSERVICE_ERRORCODE_SERVER_NOT_ACCESSIBLE
  | .SSERVICE_ERROR_CONNECTION_TIMEOUT => .SSERVICE_ERRORCODE_CONNECTION_TIMEOUT
  | .SSERVICE_ERROR_CONNECTION_GENERIC => .SSERVICE_ERRORCODE_CONNECTION_GENERIC
  | .SSERVICE_ERROR_INVALID_DESCRIPTOR_STRUCTURE => .SSERVICE_ERRORCODE_INVALID_DESCRIPTOR_STRUCTURE
  | .SSERVICE_ERROR_INVALID_DESCRIPTOR_PATH => .SSERVICE_ERRORCODE_INVALID_DESCRIPTOR_PATH
  | .SSERVICE_ERROR_INVALID_TIMEOUT => .SSERVICE_ERRORCODE_INVALID_TIMEOUT
  | .SSERVICE_ERROR_DESCRIPTOR_NOT_SUPPORTED_FOR_REQUEST_FORMAT => .SSERVICE_ERRORCODE_DESCRIPTOR_NOT_SUPPORTED_FOR_REQUEST_FORMAT
  | .SSERVICE_ERROR_INVALID_REQUEST_FORMAT => .SSERVICE_ERRORCODE_INVALID_REQUEST_FORMAT
  | .SSERVICE_ERROR_INVALID_REQUEST_BODY_STRUCTURE => .SSERVICE_ERRORCODE_INVALID_REQUEST_BODY_STRUCTURE
  | .SSERVICE_ERROR_INVALID_RESPONSE_BODY_STRUCTURE => .SSERVICE_ERRORCODE_INVALID_RESPONSE_BODY_STRUCTURE
  | .SSERVICE_ERROR_INVALID_URL => .SSERVICE_ERRORCODE_INVALID_URL
  | .SSERVICE_ERROR_INVALID_HTTP_METHOD => .SSERVICE_ERRORCODE_INVALID_HTTP_METHOD
  | .SSERVICE_ERROR_BAD_CERTIFICATE_FORMAT => .SSERVICE_ERRORCODE_BAD_CERTIFICATE_FORMAT
  | .SSERVICE_ERROR_SERVER_AUTENTICATION_ERROR => .SSERVICE_ERRORCODE_SERVER_AUTENTICATION_ERROR
  | .SSERVICE_ERROR_INVALID_ARGUMENT_SIZE => .SSERVICE_ERRORCODE_INVALID_ARGUMENT_SIZE
  | .SSERVICE_ERROR_INCORRECT_STATE => .SSERVICE_ERRORCODE_INCORRECT_STATE
  | .SSERVICE_ERROR_ACTION_ABORTED => .SSERVICE_ERRORCODE_ACTION_ABORTED

/-- Expansion of a wrapper macro: `CREATE_ERROR` applied to the enumerator of
the macro body. -/
def ss_error_wrapper_t.expand (w : ss_error_wrapper_t) : sservice_result_t :=
  CREATE_ERROR w.arg.toInt


/-! ## Shape of the constructed values -/

/-- The value `CREATE_ERROR_from` returns does not depend on what its local
held before: all three fields are assigned. -/
theorem CREATE_ERROR_from_eq (r : sservice_result_t) (c : Int) :
    CREATE_ERROR_from r c = CREATE_ERROR c := rfl

/-- The value `CREATE_SUCCESS_from` returns does not depend on what its local
held before: all three fields are assigned. -/
theorem CREATE_SUCCESS_from_eq (r : sservice_result_t) (c : Int) :
    CREATE_SUCCESS_from r c = CREATE_SUCCESS c := rfl

/-- The three fields of `CREATE_SUCCESS c`. -/
theorem CREATE_SUCCESS_eq (c : Int) :
    CREATE_SUCCESS c = { is_success := SSERVICE_SUCCESS, reserved := 0, error_or_warn_code := c } := rfl

/-! ## Contract of constructors and predicates -/

/-- C1: for every integer `c`, `IS_FAILED (CREATE_ERROR c)` is true and
`IS_SUCCESS (CREATE_ERROR c)` is false. -/
theorem CREATE_ERROR_is_failed (c : Int) :
    IS_FAILED (CREATE_ERROR c) = true ∧ IS_SUCCESS (CREATE_ERROR c) = false :=
  ⟨rfl, rfl⟩

/-- C2: for every integer `c`, `IS_SUCCESS (CREATE_SUCCESS c)` is true and
`IS_FAILED (CREATE_SUCCESS c)` is false. -/
theorem CREATE_SUCCESS_is_success (c : Int) :
    IS_SUCCESS (CREATE_SUCCESS c) = true ∧ IS_FAILED (CREATE_SUCCESS c) = false :=
  ⟨rfl, rfl⟩

/-- C3: for every integer `c` the reserved field of `CREATE_ERROR c` and of
`CREATE_SUCCESS c` is `0`; spelled out as well at the smallest and the largest
`int`, at a negative value and at zero. -/
theorem constructors_reserved_zero :
    (∀ c : Int, (CREATE_ERROR c).reserved = 0 ∧ (CREATE_SUCCESS c).reserved = 0) ∧
    (∀ c ∈ [INT_MIN, -1, 0, INT_MAX],
      (CREATE_ERROR c).reserved = 0 ∧ (CREATE_SUCCESS c).reserved = 0) :=
  ⟨fun _ => ⟨rfl, rfl⟩, fun _ _ => ⟨rfl, rfl⟩⟩

/-- C4: for every integer `c`, in the catalog or not, the code field of
`CREATE_ERROR c` is `c` and the code field of `CREATE_SUCCESS c` is `c`.  Both
constructors are total functions into the result type, so neither fails. -/
theorem constructors_carry_code (c : Int) :
    (CREATE_ERROR c).error_or_warn_code = c ∧ (CREATE_SUCCESS c).error_or_warn_code = c :=
  ⟨rfl, rfl⟩

/-- C5: on every result `r` built by `CREATE_ERROR c` or `CREATE_SUCCESS c`,
exactly one of `IS_SUCCESS r` and `IS_FAILED r` is true. -/
theorem predicates_exactly_one (c : Int) (r : sservice_result_t)
    (h : r = CREATE_ERROR c ∨ r = CREATE_SUCCESS c) :
    (IS_SUCCESS r = true ∧ IS_FAILED r = false) ∨
    (IS_SUCCESS r = false ∧ IS_FAILED r = true) := by
  rcases h with h | h
  · subst h
    exact Or.inr ⟨rfl, rfl⟩
  · subst h
    exact Or.inl ⟨rfl, rfl⟩

/-- Instance of C5 at the filesystem error built by `CREATE_ERROR 1`. -/
theorem predicates_exactly_one_witness :
    (CREATE_ERROR 1 = CREATE_ERROR 1 ∨ CREATE_ERROR 1 = CREATE_SUCCESS 1) ∧
    ((IS_SUCCESS (CREATE_ERROR 1) = true ∧ IS_FAILED (CREATE_ERROR 1) = false) ∨
     (IS_SUCCESS (CREATE_ERROR 1) = false ∧ IS_FAILED (CREATE_ERROR 1) = true)) :=
  ⟨Or.inl rfl, predicates_exactly_one 1 (CREATE_ERROR 1) (Or.inl rfl)⟩

/-! ## Contract of the catalog and the wrappers -/

open ss_error_code_t in
/-- C6: the catalog aliases two pairs of names: `SSERVICE_ERRORCODE_WRONGPERSON`
and `SSERVICE_ERRORCODE_INVALIDPERSONA` are both `5`, and
`SSERVICE_ERRORCODE_ADDITIONALCREDENTIALSPOLICYVOILATION` and
`SSERVICE_ERRORCODE_INVALIDINPUTSIZE` are both `7`. -/
theorem catalog_aliases :
    SSERVICE_ERRORCODE_WRONGPERSON.toInt = 5 ∧
    SSERVICE_ERRORCODE_INVALIDPERSONA.toInt = 5 ∧
    SSERVICE_ERRORCODE_ADDITIONALCREDENTIALSPOLICYVOILATION.toInt = 7 ∧
    SSERVICE_ERRORCODE_INVALIDINPUTSIZE.toInt = 7 :=
  ⟨rfl, rfl, rfl, rfl⟩

open ss_error_wrapper_t in
/-- C7: the named results of the scenarios: `SSERVICE_ERROR_FILESYSTEMERROR` is
an error with reserved `0` and code `1`, and `IS_FAILED` of it is true;
`SSERVICE_ERROR_CRYPTO` is an error with reserved `0` and code `1009`;
`SSERVICE_ERROR_INCORRECT_STATE` is an error with reserved `0` and code `35`,
and `IS_SUCCESS` of it is false. -/
theorem scenario_error_values :
    (SSERVICE_ERROR_FILESYSTEMERROR.expand =
        { is_success := SSERVICE_ERROR, reserved := 0, error_or_warn_code := 1 } ∧
      IS_FAILED SSERVICE_ERROR_FILESYSTEMERROR.expand = true) ∧
    SSERVICE_ERROR_CRYPTO.expand =
        { is_success := SSERVICE_ERROR, reserved := 0, error_or_warn_code := 1009 } ∧
    (SSERVICE_ERROR_INCORRECT_STATE.expand =
        { is_success := SSERVICE_ERROR, reserved := 0, error_or_warn_code := 35 } ∧
      IS_SUCCESS SSERVICE_ERROR_INCORRECT_STATE.expand = false) :=
  ⟨⟨rfl, rfl⟩, rfl, rfl, rfl⟩

open ss_success_code_t in
/-- C8: `ss_success_code_t` has exactly one enumerator,
`SSERVICE_SUCCESSCODE_NOINFO`, whose value is `0`; the wrapper
`SSERVICE_SUCCESS_NOINFO` is `CREATE_SUCCESS 0`, a success with reserved `0`
and code `0`, and `IS_SUCCESS` of it is true. -/
theorem success_catalog :
    (∀ s : ss_success_code_t, s = SSERVICE_SUCCESSCODE_NOINFO) ∧
    SSERVICE_SUCCESSCODE_NOINFO.toInt = 0 ∧
    SSERVICE_SUCCESS_NOINFO = CREATE_SUCCESS 0 ∧
    SSERVICE_SUCCESS_NOINFO =
      { is_success := SSERVICE_SUCCESS, reserved := 0, error_or_warn_code := 0 } ∧
    IS_SUCCESS SSERVICE_SUCCESS_NOINFO = true :=
  ⟨fun s => by cases s; rfl, rfl, rfl, rfl, rfl⟩

/-- C9: the wrappers cover the catalog with the matching code: every
enumerator `N` of `ss_error_code_t` is the argument of exactly one
`SSERVICE_ERROR_*` macro, and that macro expands to `CREATE_ERROR N`; every
`SSERVICE_ERROR_*` macro expands to a failure (`IS_FAILED` true, `IS_SUCCESS`
false) with reserved `0` whose code is the value of an enumerator of the
catalog, namely of the one its body names. -/
theorem wrappers_cover_catalog :
    (∀ N : ss_error_code_t, ∃! w : ss_error_wrapper_t,
      w.arg = N ∧ w.expand = CREATE_ERROR N.toInt) ∧
    (∀ w : ss_error_wrapper_t,
      IS_FAILED w.expand = true ∧ IS_SUCCESS w.expand = false ∧
      w.expand.reserved = 0 ∧
      (∃ N : ss_error_code_t, w.arg = N ∧ w.expand.error_or_warn_code = N.toInt)) := by
  refine ⟨?_, fun w => ⟨rfl, rfl, rfl, w.arg, rfl, rfl⟩⟩
  intro N
  unfold ExistsUnique
  cases N <;> decide

/-- C10: every enumerator of `ss_error_code_t` has its value in the domain band
`1 .. 36` or in the infrastructure band `1000 .. 1009`; hence none is zero or
negative, and none equals the success info code `SSERVICE_SUCCESSCODE_NOINFO`,
which is `0`. -/
theorem error_codes_in_bands (N : ss_error_code_t) :
    ((1 ≤ N.toInt ∧ N.toInt ≤ 36) ∨ (1000 ≤ N.toInt ∧ N.toInt ≤ 1009)) ∧
    0 < N.toInt ∧
    N.toInt ≠ ss_success_code_t.SSERVICE_SUCCESSCODE_NOINFO.toInt := by
  cases N <;> decide

/-! ## Behaviour beyond the constructors -/

/-- C11: there is no third outcome: on every value `r` of `sservice_result_t`,
whatever its three fields hold, exactly one of `IS_SUCCESS r` and `IS_FAILED r`
is true, that is, `IS_FAILED r` is the negation of `IS_SUCCESS r`. -/
theorem no_third_outcome (r : sservice_result_t) :
    ((IS_SUCCESS r = true ∧ IS_FAILED r = false) ∨
     (IS_SUCCESS r = false ∧ IS_FAILED r = true)) ∧
    IS_FAILED r = !IS_SUCCESS r := by
  obtain ⟨o, res, code⟩ := r
  cases o
  · exact ⟨Or.inl ⟨rfl, rfl⟩, rfl⟩
  · exact ⟨Or.inr ⟨rfl, rfl⟩, rfl⟩

open ss_error_code_t in
/-- C12: the aliasing in the catalog is limited to the two documented pairs:
two distinct enumerators of `ss_error_code_t` that are not the pair
`SSERVICE_ERRORCODE_INVALIDPERSONA`, `SSERVICE_ERRORCODE_WRONGPERSON` and not
the pair `SSERVICE_ERRORCODE_ADDITIONALCREDENTIALSPOLICYVOILATION`,
`SSERVICE_ERRORCODE_INVALIDINPUTSIZE` have different values; so the value of
`a`, when it is neither `5` nor `7`, belongs to the one name `a`. -/
theorem aliasing_limited_to_two_pairs (a b : ss_error_code_t) (hab : a ≠ b)
    (hpersona : ¬ ((a = SSERVICE_ERRORCODE_INVALIDPERSONA ∧ b = SSERVICE_ERRORCODE_WRONGPERSON) ∨
      (a = SSERVICE_ERRORCODE_WRONGPERSON ∧ b = SSERVICE_ERRORCODE_INVALIDPERSONA)))
    (hsize : ¬ ((a = SSERVICE_ERRORCODE_ADDITIONALCREDENTIALSPOLICYVOILATION ∧
        b = SSERVICE_ERRORCODE_INVALIDINPUTSIZE) ∨
      (a = SSERVICE_ERRORCODE_INVALIDINPUTSIZE ∧
        b = SSERVICE_ERRORCODE_ADDITIONALCREDENTIALSPOLICYVOILATION))) :
    a.toInt ≠ b.toInt ∧
    (a.toInt ≠ 5 → a.toInt ≠ 7 → ∃! n : ss_error_code_t, n.toInt = a.toInt) := by
  have hdiff : ∀ x y : ss_error_code_t, x ≠ y →
      ¬ ((x = SSERVICE_ERRORCODE_INVALIDPERSONA ∧ y = SSERVICE_ERRORCODE_WRONGPERSON) ∨
        (x = SSERVICE_ERRORCODE_WRONGPERSON ∧ y = SSERVICE_ERRORCODE_INVALIDPERSONA)) →
      ¬ ((x = SSERVICE_ERRORCODE_ADDITIONALCREDENTIALSPOLICYVOILATION ∧
          y = SSERVICE_ERRORCODE_INVALIDINPUTSIZE) ∨
        (x = SSERVICE_ERRORCODE_INVALIDINPUTSIZE ∧
          y = SSERVICE_ERRORCODE_ADDITIONALCREDENTIALSPOLICYVOILATION)) →
      x.toInt ≠ y.toInt := by decide
  have hone : ∀ x y : ss_error_code_t, x.toInt ≠ 5 → x.toInt ≠ 7 →
      y.toInt = x.toInt → y = x := by decide
  exact ⟨hdiff a b hab hpersona hsize, fun h5 h7 => ⟨a, rfl, fun y hy => hone a y h5 h7 hy⟩⟩

open ss_error_code_t in
/-- Instance of C12 at `SSERVICE_ERRORCODE_INVALIDPOLICY` (value `6`, between
the two aliased values) and `SSERVICE_ERRORCODE_INVALIDINPUTSIZE` (one name of
an aliased pair, met here with a name outside its pair). -/
theorem aliasing_limited_to_two_pairs_witness :
    SSERVICE_ERRORCODE_INVALIDPOLICY ≠ SSERVICE_ERRORCODE_INVALIDINPUTSIZE ∧
    SSERVICE_ERRORCODE_INVALIDPOLICY.toInt ≠ SSERVICE_ERRORCODE_INVALIDINPUTSIZE.toInt ∧
    (SSERVICE_ERRORCODE_INVALIDPOLICY.toInt ≠ 5 ∧ SSERVICE_ERRORCODE_INVALIDPOLICY.toInt ≠ 7) ∧
    (∃! n : ss_error_code_t, n.toInt = SSERVICE_ERRORCODE_INVALIDPOLICY.toInt) :=
  have h := aliasing_limited_to_two_pairs SSERVICE_ERRORCODE_INVALIDPOLICY
    SSERVICE_ERRORCODE_INVALIDINPUTSIZE (by decide) (by decide) (by decide)
  ⟨by decide, h.1, ⟨by decide, by decide⟩, h.2 (by decide) (by decide)⟩

open ss_error_wrapper_t in
/-- C13: the two names of an aliased code give one wire value:
`SSERVICE_ERROR_WRONGPERSONA` and `SSERVICE_ERROR_INVALIDPERSONA` agree in all
three fields, and so do `SSERVICE_ERROR_ADDITIONALCREDENTIALSPOLICYVOILATION`
and `SSERVICE_ERROR_INVALIDINPUTSIZE`, although the macro bodies name different
enumerators; hence every function of a result takes the same value on the two
results of a pair. -/
theorem aliased_wrappers_indistinguishable :
    (SSERVICE_ERROR_WRONGPERSONA.arg ≠ SSERVICE_ERROR_INVALIDPERSONA.arg ∧
     SSERVICE_ERROR_WRONGPERSONA.expand.is_success =
       SSERVICE_ERROR_INVALIDPERSONA.expand.is_success ∧
     SSERVICE_ERROR_WRONGPERSONA.expand.reserved =
       SSERVICE_ERROR_INVALIDPERSONA.expand.reserved ∧
     SSERVICE_ERROR_WRONGPERSONA.expand.error_or_warn_code =
       SSERVICE_ERROR_INVALIDPERSONA.expand.error_or_warn_code ∧
     SSERVICE_ERROR_WRONGPERSONA.expand = SSERVICE_ERROR_INVALIDPERSONA.expand) ∧
    (SSERVICE_ERROR_ADDITIONALCREDENTIALSPOLICYVOILATION.arg ≠
       SSERVICE_ERROR_INVALIDINPUTSIZE.arg ∧
     SSERVICE_ERROR_ADDITIONALCREDENTIALSPOLICYVOILATION.expand.is_success =
       SSERVICE_ERROR_INVALIDINPUTSIZE.expand.is_success ∧
     SSERVICE_ERROR_ADDITIONALCREDENTIALSPOLICYVOILATION.expand.reserved =
       SSERVICE_ERROR_INVALIDINPUTSIZE.expand.reserved ∧
     SSERVICE_ERROR_ADDITIONALCREDENTIALSPOLICYVOILATION.expand.error_or_warn_code =
       SSERVICE_ERROR_INVALIDINPUTSIZE.expand.error_or_warn_code ∧
     SSERVICE_ERROR_ADDITIONALCREDENTIALSPOLICYVOILATION.expand =
       SSERVICE_ERROR_INVALIDINPUTSIZE.expand) ∧
    (∀ (α : Type) (f : sservice_result_t → α),
      f SSERVICE_ERROR_WRONGPERSONA.expand = f SSERVICE_ERROR_INVALIDPERSONA.expand ∧
      f SSERVICE_ERROR_ADDITIONALCREDENTIALSPOLICYVOILATION.expand =
        f SSERVICE_ERROR_INVALIDINPUTSIZE.expand) :=
  ⟨⟨by decide, rfl, rfl, rfl, rfl⟩, ⟨by decide, rfl, rfl, rfl, rfl⟩, fun _ _ => ⟨rfl, rfl⟩⟩

/-- C14: the constructors are injective and their ranges are disjoint: equal
results of `CREATE_ERROR` come from equal arguments, equal results of
`CREATE_SUCCESS` come from equal arguments, and no result of `CREATE_ERROR`
equals a result of `CREATE_SUCCESS`, with equal arguments or not.  Hence a
constructed result is recovered from its outcome and its code alone: it is
`CREATE_ERROR` of its code when `IS_FAILED` holds and `CREATE_SUCCESS` of its
code otherwise. -/
theorem constructors_injective_disjoint (a b : Int) :
    (CREATE_ERROR a = CREATE_ERROR b → a = b) ∧
    (CREATE_SUCCESS a = CREATE_SUCCESS b → a = b) ∧
    CREATE_ERROR a ≠ CREATE_SUCCESS b ∧
    CREATE_ERROR a ≠ CREATE_SUCCESS a ∧
    (∀ r : sservice_result_t, r = CREATE_ERROR a ∨ r = CREATE_SUCCESS a →
      r.error_or_warn_code = a ∧
      r = (if IS_FAILED r then CREATE_ERROR r.error_or_warn_code
           else CREATE_SUCCESS r.error_or_warn_code)) := by
  refine ⟨fun h => ?_, fun h => ?_, fun h => ?_, fun h => ?_, fun r h => ?_⟩
  · exact congrArg sservice_result_t.error_or_warn_code h
  · exact congrArg sservice_result_t.error_or_warn_code h
  · have ho : SSERVICE_ERROR = SSERVICE_SUCCESS := congrArg sservice_result_t.is_success h
    exact absurd ho (by decide)
  · have ho : SSERVICE_ERROR = SSERVICE_SUCCESS := congrArg sservice_result_t.is_success h
    exact absurd ho (by decide)
  · rcases h with h | h
    · subst h
      exact ⟨rfl, rfl⟩
    · subst h
      exact ⟨rfl, rfl⟩

/-- Instance of C14 at the argument `35` on both sides: the equation between
the two error results holds there, and so does the one between the two success
results. -/
theorem constructors_injective_disjoint_witness :
    (CREATE_ERROR 35 = CREATE_ERROR 35 ∧ (35 : Int) = 35) ∧
    (CREATE_SUCCESS 35 = CREATE_SUCCESS 35 ∧ (35 : Int) = 35) ∧
    CREATE_ERROR 35 ≠ CREATE_SUCCESS 35 ∧
    ((CREATE_ERROR 35 = CREATE_ERROR 35 ∨ CREATE_ERROR 35 = CREATE_SUCCESS 35) ∧
      (CREATE_ERROR 35).error_or_warn_code = 35) :=
  ⟨⟨rfl, (constructors_injective_disjoint 35 35).1 rfl⟩,
   ⟨rfl, (constructors_injective_disjoint 35 35).2.1 rfl⟩,
   (constructors_injective_disjoint 35 35).2.2.1,
   ⟨Or.inl rfl,
    ((constructors_injective_disjoint 35 35).2.2.2.2 (CREATE_ERROR 35) (Or.inl rfl)).1⟩⟩

end XssError
